import Mathlib

set_option linter.unusedVariables false

/- Formal model of the ingestion core of the steam-indie-analytics
   repository: the rate limiters (src/src/collectors/rate_limiter.py), the
   data validator (src/src/collectors/data_validator.py), the Steam API
   client (src/src/collectors/steam_api.py) and the collection script
   (src/collect_indie_games.py).  Wall-clock timestamps and durations are
   modelled as rationals; Python float arithmetic on small decimal
   constants is modelled exactly over the rationals. -/

/-- Enum RateLimitStrategy (rate_limiter.py lines 19-23). -/
inductive RateLimitStrategy where
  | sliding_window
  | fixed_window
  | token_bucket
  deriving DecidableEq, Repr

/-- Dataclass RateLimitConfig (rate_limiter.py lines 26-43).  The
`__post_init__` validation guarantees positive `max_requests` and
`time_window`; `burst_size` defaults to `max_requests`. -/
structure RateLimitConfig where
  max_requests : ℕ
  time_window : ℕ
  strategy : RateLimitStrategy
  burst_size : ℕ
  backoff_factor : ℚ
  max_backoff_time : ℚ
  deriving DecidableEq, Repr

/-- `RateLimitConfig.__post_init__` (rate_limiter.py lines 36-43): rejects
non-positive `max_requests` / `time_window` with a ValueError and defaults
`burst_size` to `max_requests` when it was not supplied. -/
def RateLimitConfig.post_init (max_requests : ℤ) (time_window : ℤ)
    (strategy : RateLimitStrategy) (burst_size : Option ℤ)
    (backoff_factor : ℚ) (max_backoff_time : ℚ) :
    Except String RateLimitConfig :=
  if max_requests ≤ 0 then
    Except.error "max_requests must be a positive integer"
  else if time_window ≤ 0 then
    Except.error "time_window must be a positive integer"
  else
    Except.ok
      { max_requests := max_requests.toNat
        time_window := time_window.toNat
        strategy := strategy
        burst_size := (burst_size.getD max_requests).toNat
        backoff_factor := backoff_factor
        max_backoff_time := max_backoff_time }

/-- Dataclass RequestRecord (rate_limiter.py lines 46-52). -/
structure RequestRecord where
  timestamp : ℚ
  success : Bool := true
  response_time : Option ℚ := Option.none
  error_message : Option String := Option.none
  deriving DecidableEq, Repr

/-- `min(self.requests, key=lambda r: r.timestamp)` — Python `min` keeps
the first element attaining the minimal key. -/
def minByTimestamp : List RequestRecord → Option RequestRecord
  | [] => Option.none
  | r :: rs =>
      Option.some (rs.foldl (fun best x =>
        if x.timestamp < best.timestamp then x else best) r)

namespace SlidingWindowRateLimiter

/-- The pruning step of `SlidingWindowRateLimiter.acquire`
(rate_limiter.py line 81): keep the records whose timestamp is strictly
newer than `now - time_window`. -/
def pruneRequests (time_window : ℕ) (now : ℚ) (reqs : List RequestRecord) :
    List RequestRecord :=
  reqs.filter (fun req => now - (time_window : ℚ) < req.timestamp)

/-- `SlidingWindowRateLimiter.acquire` (rate_limiter.py lines 67-100),
acting on the `requests` list of the limiter.  Returns the wait time in
seconds together with the new `requests` list. -/
def acquire (config : RateLimitConfig) (requests : List RequestRecord)
    (now : ℚ) (weight : ℕ) : ℚ × List RequestRecord :=
  let pruned := pruneRequests config.time_window now requests
  let current_requests := (pruned.filter (fun req => req.success)).length
  if config.max_requests < current_requests + weight then
    match minByTimestamp pruned with
    | Option.some oldest_request =>
        (max 0 (oldest_request.timestamp + (config.time_window : ℚ) - now),
         pruned)
    | Option.none => ((config.time_window : ℚ), pruned)
  else
    (0, pruned ++ [{ timestamp := now }])

/-- `SlidingWindowRateLimiter.record_response` (rate_limiter.py lines
102-113): mutate the most recent request record, if any. -/
def record_response (requests : List RequestRecord) (success : Bool)
    (response_time : Option ℚ) (error_message : Option String) :
    List RequestRecord :=
  match requests with
  | [] => []
  | [r] => [{ r with
      success := success
      response_time := response_time
      error_message := error_message }]
  | r :: rs => r :: record_response rs success response_time error_message

end SlidingWindowRateLimiter

/-- The behaviour that claim C1 ascribes to `SlidingWindowRateLimiter.acquire`
at one call: after pruning, when the successful in-window count plus the
weight exceeds `max_requests` the call returns the (non-negative) time
until the oldest remaining in-window record expires and appends nothing;
otherwise it appends exactly one new record timestamped `now` and
returns 0. -/
def claimC1 (config : RateLimitConfig) (requests : List RequestRecord)
    (now : ℚ) (weight : ℕ) : Prop :=
  let pruned := SlidingWindowRateLimiter.pruneRequests config.time_window
    now requests
  let current := (pruned.filter (fun req => req.success)).length
  let result := SlidingWindowRateLimiter.acquire config requests now weight
  if config.max_requests < current + weight then
    (∃ oldest ∈ pruned,
        (∀ r ∈ pruned, oldest.timestamp ≤ r.timestamp) ∧
        result.1 = oldest.timestamp + (config.time_window : ℚ) - now ∧
        0 ≤ result.1) ∧
    result.2 = pruned
  else
    result.1 = 0 ∧ result.2 = pruned ++ [{ timestamp := now }]

/-- The foldl used by `minByTimestamp` returns an element of the list. -/
theorem minByTimestamp_foldl_mem (r : RequestRecord)
    (rs : List RequestRecord) :
    rs.foldl (fun best x => if x.timestamp < best.timestamp then x else best)
      r ∈ r :: rs := by
  induction rs generalizing r with
  | nil => simp
  | cons x xs ih =>
      have h := ih (if x.timestamp < r.timestamp then x else r)
      simp only [List.foldl_cons]
      rcases List.mem_cons.mp h with h1 | h1
      · by_cases hx : x.timestamp < r.timestamp
        · simp [hx] at h1
          simp [List.foldl_cons, hx, h1]
        · simp [hx] at h1
          simp [List.foldl_cons, hx, h1]
      · simp [h1]

/-- The foldl used by `minByTimestamp` attains the minimal timestamp. -/
theorem minByTimestamp_foldl_le (r : RequestRecord)
    (rs : List RequestRecord) :
    ∀ y ∈ r :: rs,
      (rs.foldl (fun best x =>
        if x.timestamp < best.timestamp then x else best) r).timestamp
        ≤ y.timestamp := by
  induction rs generalizing r with
  | nil => intro y hy; simp at hy; simp [hy]
  | cons x xs ih =>
      intro y hy
      have hfold :
          ((x :: xs).foldl (fun best x =>
            if x.timestamp < best.timestamp then x else best) r)
            = xs.foldl (fun best x =>
              if x.timestamp < best.timestamp then x else best)
              (if x.timestamp < r.timestamp then x else r) := by
        simp [List.foldl_cons]
      have hbase : (if x.timestamp < r.timestamp then x else r).timestamp
          ≤ r.timestamp ∧
          (if x.timestamp < r.timestamp then x else r).timestamp
          ≤ x.timestamp := by
        by_cases hx : x.timestamp < r.timestamp
        · exact ⟨by simp [hx]; linarith, by simp [hx]⟩
        · exact ⟨by simp [hx], by simp [hx]; linarith⟩
      rcases List.mem_cons.mp hy with h1 | h1
      · subst h1
        calc _ ≤ (if x.timestamp < y.timestamp then x else y).timestamp :=
              ih _ _ (List.mem_cons_self _ _)
          _ ≤ y.timestamp := hbase.1
      · rcases List.mem_cons.mp h1 with h2 | h2
        · subst h2
          calc _ ≤ (if y.timestamp < r.timestamp then y else r).timestamp :=
                ih _ _ (List.mem_cons_self _ _)
            _ ≤ y.timestamp := hbase.2
        · rw [hfold]
          exact ih _ y (List.mem_cons_of_mem _ h2)

/-- `minByTimestamp` returns a member of the list that attains the minimal
timestamp (the first such member, like Python `min` with a key). -/
theorem minByTimestamp_spec {l : List RequestRecord} {m : RequestRecord}
    (h : minByTimestamp l = Option.some m) :
    m ∈ l ∧ ∀ r ∈ l, m.timestamp ≤ r.timestamp := by
  cases l with
  | nil => simp [minByTimestamp] at h
  | cons r rs =>
      simp only [minByTimestamp, Option.some.injEq] at h
      subst h
      exact ⟨minByTimestamp_foldl_mem r rs, minByTimestamp_foldl_le r rs⟩

/-- Claim C1, corrected: one `acquire` call on a sliding-window limiter
prunes the window, then (a) if the successful in-window count plus the
weight fits within `max_requests` it appends exactly one new record
timestamped `now` and returns wait 0; (b) if it does not fit and at least
one record remains in the window, it appends nothing and returns the
strictly positive time until the oldest remaining record leaves the
window; (c) if it does not fit and the window is empty — which forces
`weight > max_requests` — it appends nothing and returns the full
`time_window`. -/
theorem C1_sliding_acquire_characterization (config : RateLimitConfig)
    (requests : List RequestRecord) (now : ℚ) (weight : ℕ) :
    (((SlidingWindowRateLimiter.pruneRequests config.time_window now
          requests).filter (fun req => req.success)).length + weight
        ≤ config.max_requests →
      SlidingWindowRateLimiter.acquire config requests now weight =
        (0, SlidingWindowRateLimiter.pruneRequests config.time_window now
              requests ++ [{ timestamp := now }])) ∧
    (config.max_requests <
        ((SlidingWindowRateLimiter.pruneRequests config.time_window now
          requests).filter (fun req => req.success)).length + weight →
      SlidingWindowRateLimiter.pruneRequests config.time_window now requests
        ≠ [] →
      (SlidingWindowRateLimiter.acquire config requests now weight).2 =
        SlidingWindowRateLimiter.pruneRequests config.time_window now
          requests ∧
      ∃ oldest ∈ SlidingWindowRateLimiter.pruneRequests config.time_window
          now requests,
        (∀ r ∈ SlidingWindowRateLimiter.pruneRequests config.time_window
            now requests, oldest.timestamp ≤ r.timestamp) ∧
        (SlidingWindowRateLimiter.acquire config requests now weight).1 =
          oldest.timestamp + (config.time_window : ℚ) - now ∧
        0 < (SlidingWindowRateLimiter.acquire config requests now
          weight).1) ∧
    (config.max_requests <
        ((SlidingWindowRateLimiter.pruneRequests config.time_window now
          requests).filter (fun req => req.success)).length + weight →
      SlidingWindowRateLimiter.pruneRequests config.time_window now requests
        = [] →
      SlidingWindowRateLimiter.acquire config requests now weight =
        ((config.time_window : ℚ), []) ∧
      config.max_requests < weight) := by
  refine ⟨?_, ?_, ?_⟩
  · intro hle
    have hnb : ¬ config.max_requests <
        ((SlidingWindowRateLimiter.pruneRequests config.time_window now
          requests).filter (fun req => req.success)).length + weight := by
      omega
    simp [SlidingWindowRateLimiter.acquire, hnb]
  · intro hb hne
    obtain ⟨m, hm⟩ : ∃ m,
        minByTimestamp (SlidingWindowRateLimiter.pruneRequests
          config.time_window now requests) = Option.some m := by
      cases h : SlidingWindowRateLimiter.pruneRequests config.time_window
          now requests with
      | nil => exact absurd h hne
      | cons r rs => exact ⟨_, rfl⟩
    obtain ⟨hmem, hmin⟩ := minByTimestamp_spec hm
    have hwin : now - (config.time_window : ℚ) < m.timestamp := by
      have := hmem
      simp only [SlidingWindowRateLimiter.pruneRequests, List.mem_filter,
        decide_eq_true_eq] at this
      exact this.2
    have hpos : 0 < m.timestamp + (config.time_window : ℚ) - now := by
      linarith
    have hres : SlidingWindowRateLimiter.acquire config requests now weight
        = (max 0 (m.timestamp + (config.time_window : ℚ) - now),
           SlidingWindowRateLimiter.pruneRequests config.time_window now
             requests) := by
      simp [SlidingWindowRateLimiter.acquire, hb, hm]
    have hmax : max 0 (m.timestamp + (config.time_window : ℚ) - now)
        = m.timestamp + (config.time_window : ℚ) - now :=
      max_eq_right (le_of_lt hpos)
    refine ⟨by rw [hres], m, hmem, hmin, by rw [hres, hmax],
      by rw [hres]; simpa [hmax] using hpos⟩
  · intro hb hemp
    have hzero :
        ((SlidingWindowRateLimiter.pruneRequests config.time_window now
          requests).filter (fun req => req.success)).length = 0 := by
      rw [hemp]; rfl
    have hlt : config.max_requests < weight := by
      rw [hzero] at hb; omega
    refine ⟨?_, hlt⟩
    simp [SlidingWindowRateLimiter.acquire, hb, hemp, minByTimestamp, hlt]

/-- A concrete sliding-window configuration with `max_requests = 1` and
`time_window = 60` (as validated by `RateLimitConfig.post_init`). -/
def slidingCexConfig : RateLimitConfig :=
  { max_requests := 1
    time_window := 60
    strategy := RateLimitStrategy.sliding_window
    burst_size := 1
    backoff_factor := 3/2
    max_backoff_time := 300 }

/-- C1 counterexample: with `max_requests = 1` and an empty request list,
`acquire(weight = 2)` takes the over-limit branch although no in-window
record remains, so no "time until the oldest remaining in-window record
expires" exists; the code returns the full `time_window` (60 s) instead.
The claim as stated is therefore false at this input. -/
theorem C1_counterexample :
    ¬ claimC1 slidingCexConfig [] 0 2 ∧
    SlidingWindowRateLimiter.acquire slidingCexConfig [] 0 2 =
      ((60 : ℚ), []) := by
  constructor
  · intro h
    simp [claimC1, SlidingWindowRateLimiter.pruneRequests,
      slidingCexConfig] at h
  · decide

/-- Witness for the corrected C1 theorem: a limiter at capacity (one
successful record at time 0, `max_requests = 1`, window 60 s) answers
`acquire` at time 30 with wait 30 — the expiry of the oldest record —
and appends nothing. -/
theorem C1_witness :
    (SlidingWindowRateLimiter.acquire slidingCexConfig
      [{ timestamp := 0 }] 30 1).1 = 30 ∧
    (SlidingWindowRateLimiter.acquire slidingCexConfig
      [{ timestamp := 0 }] 30 1).2 = [{ timestamp := 0 }] := by
  have h := (C1_sliding_acquire_characterization slidingCexConfig
    [{ timestamp := 0 }] 30 1).2.1
    (by norm_num [slidingCexConfig, SlidingWindowRateLimiter.pruneRequests])
    (by norm_num [slidingCexConfig, SlidingWindowRateLimiter.pruneRequests])
  obtain ⟨h2, oldest, hmem, hmin, hval, hpos⟩ := h
  have hold : oldest = { timestamp := 0 } := by
    have := hmem
    simp [SlidingWindowRateLimiter.pruneRequests] at this
    exact this.1
  constructor
  · rw [hval, hold]
    norm_num [slidingCexConfig]
  · rw [h2]
    norm_num [slidingCexConfig, SlidingWindowRateLimiter.pruneRequests]

namespace TokenBucketRateLimiter

/-- State of a `TokenBucketRateLimiter` (rate_limiter.py lines 149-156):
fractional token count plus the last refill timestamp. -/
structure State where
  tokens : ℚ
  last_refill : ℚ
  deriving DecidableEq, Repr

/-- `self.refill_rate = config.max_requests / config.time_window`
(rate_limiter.py line 156). -/
def refill_rate (config : RateLimitConfig) : ℚ :=
  (config.max_requests : ℚ) / (config.time_window : ℚ)

/-- Initial state (rate_limiter.py lines 149-152): the bucket starts full
(`tokens = float(burst_size)`) with `last_refill` set to the construction
time. -/
def init (config : RateLimitConfig) (now : ℚ) : State :=
  { tokens := (config.burst_size : ℚ), last_refill := now }

/-- `TokenBucketRateLimiter.acquire` (rate_limiter.py lines 158-185):
refill capped at `burst_size`, then either consume `weight` tokens and
return wait 0, or return the time needed to accumulate the missing
tokens without consuming any. -/
def acquire (config : RateLimitConfig) (st : State) (now : ℚ)
    (weight : ℕ) : ℚ × State :=
  let elapsed := now - st.last_refill
  let tokens_to_add := elapsed * refill_rate config
  let tokens := min (config.burst_size : ℚ) (st.tokens + tokens_to_add)
  if tokens < (weight : ℚ) then
    let tokens_needed := (weight : ℚ) - tokens
    (tokens_needed / refill_rate config, { tokens := tokens, last_refill := now })
  else
    (0, { tokens := tokens - (weight : ℚ), last_refill := now })

end TokenBucketRateLimiter

/-- Claim C2, confirmed: one `acquire` on a token bucket first refills to
`min(burst_size, tokens + (now - last_refill) * max_requests/time_window)`
and stamps `last_refill = now`; if the refilled count covers the weight it
subtracts the weight and returns 0, otherwise it returns
`(weight - tokens)/refill_rate` and consumes nothing.  Under forward time
and a weight within `burst_size`-bounded state, the token count stays in
`[0, burst_size]`. -/
theorem C2_token_bucket_acquire (config : RateLimitConfig)
    (st : TokenBucketRateLimiter.State) (now : ℚ) (weight : ℕ)
    (hmax : 0 < config.max_requests) (htw : 0 < config.time_window)
    (htime : st.last_refill ≤ now)
    (hlo : 0 ≤ st.tokens) (hhi : st.tokens ≤ (config.burst_size : ℚ)) :
    (TokenBucketRateLimiter.acquire config st now weight).2.last_refill =
      now ∧
    (((min (config.burst_size : ℚ)
        (st.tokens + (now - st.last_refill) *
          ((config.max_requests : ℚ) / (config.time_window : ℚ)))) <
        (weight : ℚ) →
      (TokenBucketRateLimiter.acquire config st now weight).1 =
        ((weight : ℚ) -
          min (config.burst_size : ℚ)
            (st.tokens + (now - st.last_refill) *
              ((config.max_requests : ℚ) / (config.time_window : ℚ)))) /
          TokenBucketRateLimiter.refill_rate config ∧
      (TokenBucketRateLimiter.acquire config st now weight).2.tokens =
        min (config.burst_size : ℚ)
          (st.tokens + (now - st.last_refill) *
            ((config.max_requests : ℚ) / (config.time_window : ℚ))))) ∧
    (((weight : ℚ) ≤
        min (config.burst_size : ℚ)
          (st.tokens + (now - st.last_refill) *
            ((config.max_requests : ℚ) / (config.time_window : ℚ))) →
      (TokenBucketRateLimiter.acquire config st now weight).1 = 0 ∧
      (TokenBucketRateLimiter.acquire config st now weight).2.tokens =
        min (config.burst_size : ℚ)
          (st.tokens + (now - st.last_refill) *
            ((config.max_requests : ℚ) / (config.time_window : ℚ))) -
          (weight : ℚ))) ∧
    0 ≤ (TokenBucketRateLimiter.acquire config st now weight).2.tokens ∧
    (TokenBucketRateLimiter.acquire config st now weight).2.tokens ≤
      (config.burst_size : ℚ) := by
  have hrate : 0 < TokenBucketRateLimiter.refill_rate config := by
    have h1 : (0 : ℚ) < (config.max_requests : ℚ) := by
      exact_mod_cast hmax
    have h2 : (0 : ℚ) < (config.time_window : ℚ) := by
      exact_mod_cast htw
    exact div_pos h1 h2
  have hadd : 0 ≤ (now - st.last_refill) *
      TokenBucketRateLimiter.refill_rate config :=
    mul_nonneg (by linarith) (le_of_lt hrate)
  have hburst : (0 : ℚ) ≤ (config.burst_size : ℚ) := by positivity
  have hmin0 : 0 ≤ min (config.burst_size : ℚ)
      (st.tokens + (now - st.last_refill) *
        TokenBucketRateLimiter.refill_rate config) :=
    le_min hburst (by linarith)
  by_cases hcase : min (config.burst_size : ℚ)
      (st.tokens + (now - st.last_refill) *
        TokenBucketRateLimiter.refill_rate config) < (weight : ℚ)
  · refine ⟨?_, ?_, ?_, ?_, ?_⟩ <;>
      simp only [TokenBucketRateLimiter.acquire,
        TokenBucketRateLimiter.refill_rate, if_pos] at *
    · rw [if_pos hcase]
    · intro h
      rw [if_pos hcase]
      exact ⟨rfl, rfl⟩
    · intro h
      exact absurd hcase (not_lt.mpr h)
    · rw [if_pos hcase]
      exact hmin0
    · rw [if_pos hcase]
      exact min_le_left (config.burst_size : ℚ) _
  · push_neg at hcase
    refine ⟨?_, ?_, ?_, ?_, ?_⟩ <;>
      simp only [TokenBucketRateLimiter.acquire,
        TokenBucketRateLimiter.refill_rate] at *
    · rw [if_neg (not_lt.mpr hcase)]
    · intro h
      exact absurd h (not_lt.mpr hcase)
    · intro h
      rw [if_neg (not_lt.mpr hcase)]
      exact ⟨rfl, rfl⟩
    · rw [if_neg (not_lt.mpr hcase)]
      simp only []
      have hw : (0 : ℚ) ≤ (weight : ℚ) := by positivity
      linarith [hcase]
    · rw [if_neg (not_lt.mpr hcase)]
      simp only []
      have hw : (0 : ℚ) ≤ (weight : ℚ) := by positivity
      have := min_le_left (config.burst_size : ℚ)
        (st.tokens + (now - st.last_refill) *
          ((config.max_requests : ℚ) / (config.time_window : ℚ)))
      linarith

/-- A concrete token-bucket configuration: 10 requests per 5 s window,
burst 10. -/
def tokenCfg : RateLimitConfig :=
  { max_requests := 10
    time_window := 5
    strategy := RateLimitStrategy.token_bucket
    burst_size := 10
    backoff_factor := 3/2
    max_backoff_time := 300 }

/-- Witness for C2: a full bucket (10 tokens at time 0) answers
`acquire(weight = 3)` at time 1 with wait 0 and 7 remaining tokens, and
the token count stays within `[0, burst_size]`. -/
theorem C2_witness :
    (TokenBucketRateLimiter.acquire tokenCfg ⟨10, 0⟩ 1 3).1 = 0 ∧
    (TokenBucketRateLimiter.acquire tokenCfg ⟨10, 0⟩ 1 3).2.tokens = 7 ∧
    0 ≤ (TokenBucketRateLimiter.acquire tokenCfg ⟨10, 0⟩ 1 3).2.tokens ∧
    (TokenBucketRateLimiter.acquire tokenCfg ⟨10, 0⟩ 1 3).2.tokens ≤
      (tokenCfg.burst_size : ℚ) := by
  have h := C2_token_bucket_acquire tokenCfg ⟨10, 0⟩ 1 3
    (by norm_num [tokenCfg]) (by norm_num [tokenCfg])
    (by norm_num) (by norm_num) (by norm_num [tokenCfg])
  obtain ⟨hlast, hlt, hge, hlo2, hhi2⟩ := h
  have hc := hge (by norm_num [tokenCfg, min_def])
  refine ⟨hc.1, ?_, hlo2, hhi2⟩
  rw [hc.2]
  norm_num [tokenCfg, min_def]

namespace AdaptiveRateLimiter

/-- `self.error_threshold = 0.1` (rate_limiter.py line 219). -/
def error_threshold : ℚ := 1/10

/-- `self.response_time_threshold = 5.0` (rate_limiter.py line 220). -/
def response_time_threshold : ℚ := 5

/-- `self.adjustment_interval = 60` (rate_limiter.py line 221). -/
def adjustment_interval : ℚ := 60

/-- State of an `AdaptiveRateLimiter` (rate_limiter.py lines 204-222).
`base_config` is the config object shared with the wrapped
`SlidingWindowRateLimiter` (its `max_requests` is overwritten on
adjustment); `min_limit`, `max_limit` and `current_limit` are computed
once from the original `config.max_requests` at construction. -/
structure State where
  base_config : RateLimitConfig
  base_requests : List RequestRecord
  current_limit : ℕ
  min_limit : ℕ
  max_limit : ℕ
  recent_errors : List ℚ
  recent_response_times : List (ℚ × ℚ)
  adjustment_history : List (ℕ × ℕ)
  last_adjustment : ℚ
  deriving DecidableEq, Repr

/-- `AdaptiveRateLimiter.__init__` (rate_limiter.py lines 204-222);
`now` is the construction time `time.time()`. -/
def init (config : RateLimitConfig) (now : ℚ) : State :=
  { base_config := config
    base_requests := []
    current_limit := config.max_requests
    min_limit := max 1 (config.max_requests / 10)
    max_limit := config.max_requests * 2
    recent_errors := []
    recent_response_times := []
    adjustment_history := []
    last_adjustment := now }

/-- `error_rate = len(recent_errors) / max(1, len(self.base_limiter.requests))`
(rate_limiter.py line 250), with `recent_errors` filtered to the trailing
adjustment interval. -/
def error_rate (st : State) (now : ℚ) : ℚ :=
  ((st.recent_errors.filter
      (fun err => now - adjustment_interval < err)).length : ℚ) /
    ((max 1 st.base_requests.length : ℕ) : ℚ)

/-- `avg_response_time = sum(rt[1] for rt in recent_times) / max(1, len(recent_times))`
(rate_limiter.py line 251), with `recent_times` filtered to the trailing
adjustment interval. -/
def avg_response_time (st : State) (now : ℚ) : ℚ :=
  let recent_times := st.recent_response_times.filter
    (fun rt => now - adjustment_interval < rt.1)
  ((recent_times.map Prod.snd).sum) /
    ((max 1 recent_times.length : ℕ) : ℚ)

/-- The guard of the shrink branch (rate_limiter.py line 256). -/
def shrink_condition (st : State) (now : ℚ) : Prop :=
  error_threshold < error_rate st now ∨
    response_time_threshold < avg_response_time st now

/-- The guard of the grow branch (rate_limiter.py line 260). -/
def grow_condition (st : State) (now : ℚ) : Prop :=
  error_rate st now < error_threshold / 2 ∧
    avg_response_time st now < response_time_threshold / 2

instance (st : State) (now : ℚ) : Decidable (shrink_condition st now) := by
  unfold shrink_condition; infer_instance

instance (st : State) (now : ℚ) : Decidable (grow_condition st now) := by
  unfold grow_condition; infer_instance

/-- The branch ladder of `_adjust_limits` (rate_limiter.py lines 254-262)
computing the adjusted limit.  Python `int(x * 0.8)` / `int(x * 1.1)` on a
non-negative float is truncation towards zero, i.e. the floor, modelled
exactly over ℚ. -/
def new_limit_calc (st : State) (now : ℚ) : ℕ :=
  if shrink_condition st now then
    max st.min_limit (Nat.floor ((st.current_limit : ℚ) * (8/10)))
  else if grow_condition st now then
    min st.max_limit (Nat.floor ((st.current_limit : ℚ) * (11/10)))
  else st.current_limit

/-- `AdaptiveRateLimiter._adjust_limits` (rate_limiter.py lines 239-281). -/
def adjust_limits (st : State) (now : ℚ) : State :=
  if now - st.last_adjustment < adjustment_interval then st
  else
    let old_limit := st.current_limit
    let new_limit := new_limit_calc st now
    if old_limit ≠ new_limit then
      { st with
          current_limit := new_limit
          base_config := { st.base_config with max_requests := new_limit }
          adjustment_history := st.adjustment_history ++
            [(old_limit, new_limit)]
          last_adjustment := now }
    else
      { st with current_limit := new_limit, last_adjustment := now }

/-- `AdaptiveRateLimiter.acquire` (rate_limiter.py lines 224-237):
adjust, then delegate to the wrapped sliding-window limiter (which reads
the shared, possibly rewritten config). -/
def acquire (st : State) (now : ℚ) (weight : ℕ) : ℚ × State :=
  let st1 := adjust_limits st now
  let result := SlidingWindowRateLimiter.acquire st1.base_config
    st1.base_requests now weight
  (result.1, { st1 with base_requests := result.2 })

/-- `AdaptiveRateLimiter.record_response` (rate_limiter.py lines 283-303). -/
def record_response (st : State) (now : ℚ) (success : Bool)
    (response_time : Option ℚ) (error_message : Option String) : State :=
  let base_requests := SlidingWindowRateLimiter.record_response
    st.base_requests success response_time error_message
  let recent_errors :=
    if success then st.recent_errors else st.recent_errors ++ [now]
  let recent_response_times :=
    match response_time with
    | Option.some rt => st.recent_response_times ++ [(now, rt)]
    | Option.none => st.recent_response_times
  let cutoff_time := now - adjustment_interval * 2
  { st with
      base_requests := base_requests
      recent_errors := recent_errors.filter (fun err => cutoff_time < err)
      recent_response_times := recent_response_times.filter
        (fun rt => cutoff_time < rt.1) }

end AdaptiveRateLimiter

/-- One externally visible operation on an `AdaptiveRateLimiter`. -/
inductive AdaptiveEvent where
  | acquireEv (now : ℚ) (weight : ℕ)
  | recordEv (now : ℚ) (success : Bool) (response_time : Option ℚ)
      (error_message : Option String)
  deriving DecidableEq, Repr

/-- Apply one operation to an adaptive limiter state. -/
def adaptiveStep (st : AdaptiveRateLimiter.State) :
    AdaptiveEvent → AdaptiveRateLimiter.State
  | AdaptiveEvent.acquireEv now weight =>
      (AdaptiveRateLimiter.acquire st now weight).2
  | AdaptiveEvent.recordEv now success response_time error_message =>
      AdaptiveRateLimiter.record_response st now success response_time
        error_message

/-- Run an adaptive limiter constructed at time `t0` from `config`
through a sequence of operations. -/
def adaptiveRun (config : RateLimitConfig) (t0 : ℚ)
    (events : List AdaptiveEvent) : AdaptiveRateLimiter.State :=
  events.foldl adaptiveStep (AdaptiveRateLimiter.init config t0)

/-- Truncating `current_limit * 0.8` can only decrease the limit. -/
theorem floor_shrink_le (cl : ℕ) :
    Nat.floor ((cl : ℚ) * (8/10)) ≤ cl := by
  have h : (cl : ℚ) * (8/10) ≤ (cl : ℚ) := by
    nlinarith [Nat.cast_nonneg (α := ℚ) cl]
  calc Nat.floor ((cl : ℚ) * (8/10)) ≤ Nat.floor ((cl : ℚ)) :=
        Nat.floor_le_floor h
    _ = cl := Nat.floor_natCast cl

/-- Truncating `current_limit * 1.1` can only increase the limit. -/
theorem le_floor_grow (cl : ℕ) :
    cl ≤ Nat.floor ((cl : ℚ) * (11/10)) := by
  apply Nat.le_floor
  nlinarith [Nat.cast_nonneg (α := ℚ) cl]

/-- The limit bounds an adaptive limiter must maintain. -/
def limitInvariant (st : AdaptiveRateLimiter.State) : Prop :=
  st.min_limit ≤ st.current_limit ∧ st.current_limit ≤ st.max_limit ∧
    st.min_limit ≤ st.max_limit

/-- `_adjust_limits` never changes the stored `min_limit` / `max_limit`. -/
theorem adjust_limits_frozen (st : AdaptiveRateLimiter.State) (now : ℚ) :
    (AdaptiveRateLimiter.adjust_limits st now).min_limit = st.min_limit ∧
    (AdaptiveRateLimiter.adjust_limits st now).max_limit = st.max_limit := by
  unfold AdaptiveRateLimiter.adjust_limits
  dsimp only
  split_ifs <;> exact ⟨rfl, rfl⟩

/-- The adjusted limit is exactly `new_limit_calc`, once the adjustment
interval has elapsed; otherwise `_adjust_limits` is the identity. -/
theorem adjust_limits_current (st : AdaptiveRateLimiter.State) (now : ℚ) :
    (AdaptiveRateLimiter.adjust_limits st now).current_limit =
      (if now - st.last_adjustment <
          AdaptiveRateLimiter.adjustment_interval then st.current_limit
       else AdaptiveRateLimiter.new_limit_calc st now) ∧
    (now - st.last_adjustment < AdaptiveRateLimiter.adjustment_interval →
      AdaptiveRateLimiter.adjust_limits st now = st) := by
  unfold AdaptiveRateLimiter.adjust_limits
  dsimp only
  split_ifs with ht hne
  · exact ⟨rfl, fun _ => rfl⟩
  · exact ⟨rfl, fun h => absurd h ht⟩
  · exact ⟨rfl, fun h => absurd h ht⟩

/-- `new_limit_calc` keeps the limit within `[min_limit, max_limit]`. -/
theorem new_limit_calc_bounds (st : AdaptiveRateLimiter.State) (now : ℚ)
    (h1 : st.min_limit ≤ st.current_limit)
    (h2 : st.current_limit ≤ st.max_limit)
    (h3 : st.min_limit ≤ st.max_limit) :
    st.min_limit ≤ AdaptiveRateLimiter.new_limit_calc st now ∧
    AdaptiveRateLimiter.new_limit_calc st now ≤ st.max_limit := by
  unfold AdaptiveRateLimiter.new_limit_calc
  split_ifs with hs hg
  · exact ⟨le_max_left _ _,
      max_le h3 ((floor_shrink_le st.current_limit).trans h2)⟩
  · exact ⟨le_min h3 (h1.trans (le_floor_grow st.current_limit)),
      min_le_left _ _⟩
  · exact ⟨h1, h2⟩

/-- `_adjust_limits` keeps `current_limit` within
`[min_limit, max_limit]`. -/
theorem adjust_limits_bounds (st : AdaptiveRateLimiter.State) (now : ℚ)
    (h : limitInvariant st) :
    limitInvariant (AdaptiveRateLimiter.adjust_limits st now) := by
  obtain ⟨h1, h2, h3⟩ := h
  obtain ⟨hcur, _⟩ := adjust_limits_current st now
  obtain ⟨hmin, hmax⟩ := adjust_limits_frozen st now
  unfold limitInvariant
  rw [hcur, hmin, hmax]
  split_ifs with ht
  · exact ⟨h1, h2, h3⟩
  · exact ⟨(new_limit_calc_bounds st now h1 h2 h3).1,
      (new_limit_calc_bounds st now h1 h2 h3).2, h3⟩

/-- One `acquire`/`record_response` never changes `min_limit` or
`max_limit`. -/
theorem adaptiveStep_frozen (st : AdaptiveRateLimiter.State)
    (e : AdaptiveEvent) :
    (adaptiveStep st e).min_limit = st.min_limit ∧
    (adaptiveStep st e).max_limit = st.max_limit := by
  cases e with
  | acquireEv now weight =>
      exact ⟨(adjust_limits_frozen st now).1, (adjust_limits_frozen st now).2⟩
  | recordEv now success response_time error_message => exact ⟨rfl, rfl⟩

/-- One `acquire`/`record_response` preserves the limit invariant. -/
theorem adaptiveStep_invariant (st : AdaptiveRateLimiter.State)
    (e : AdaptiveEvent) (h : limitInvariant st) :
    limitInvariant (adaptiveStep st e) := by
  cases e with
  | acquireEv now weight => exact adjust_limits_bounds st now h
  | recordEv now success response_time error_message => exact h

/-- Folding any operation sequence preserves the limit invariant and the
frozen bounds. -/
theorem adaptiveFold_props (events : List AdaptiveEvent)
    (st : AdaptiveRateLimiter.State) (h : limitInvariant st) :
    limitInvariant (events.foldl adaptiveStep st) ∧
    (events.foldl adaptiveStep st).min_limit = st.min_limit ∧
    (events.foldl adaptiveStep st).max_limit = st.max_limit := by
  induction events generalizing st with
  | nil => exact ⟨h, rfl, rfl⟩
  | cons e es ih =>
      obtain ⟨hi, hm, hM⟩ := ih (adaptiveStep st e)
        (adaptiveStep_invariant st e h)
      obtain ⟨hm2, hM2⟩ := adaptiveStep_frozen st e
      exact ⟨hi, hm.trans hm2, hM.trans hM2⟩

/-- Claim C3, corrected: adjustment ticks fire at most once per 60 s
interval; at a tick the limit shrinks to
`max(minLimit, ⌊currentLimit*0.8⌋)` when the error rate exceeds 0.1 or
the average response time exceeds 5 s, grows to
`min(maxLimit, ⌊currentLimit*1.1⌋)` when both metrics are below half
their thresholds, and is otherwise unchanged (the multiplications are
truncated to an int, which the claim omits); with
`minLimit = max(1, ⌊maxRequests/10⌋)` and `maxLimit = maxRequests*2`
frozen at construction, `current_limit` stays in `[minLimit, maxLimit]`
after every sequence of `acquire`/`record_response` calls. -/
theorem C3_adaptive_limit_bounds (config : RateLimitConfig)
    (h : 0 < config.max_requests) (t0 : ℚ)
    (events : List AdaptiveEvent) :
    (adaptiveRun config t0 events).min_limit =
      max 1 (config.max_requests / 10) ∧
    (adaptiveRun config t0 events).max_limit = config.max_requests * 2 ∧
    (adaptiveRun config t0 events).min_limit ≤
      (adaptiveRun config t0 events).current_limit ∧
    (adaptiveRun config t0 events).current_limit ≤
      (adaptiveRun config t0 events).max_limit ∧
    (∀ (st : AdaptiveRateLimiter.State) (now : ℚ),
      (now - st.last_adjustment < AdaptiveRateLimiter.adjustment_interval →
        AdaptiveRateLimiter.adjust_limits st now = st) ∧
      (AdaptiveRateLimiter.adjustment_interval ≤ now - st.last_adjustment →
        (AdaptiveRateLimiter.shrink_condition st now →
          (AdaptiveRateLimiter.adjust_limits st now).current_limit =
            max st.min_limit
              (Nat.floor ((st.current_limit : ℚ) * (8/10)))) ∧
        (¬ AdaptiveRateLimiter.shrink_condition st now →
          AdaptiveRateLimiter.grow_condition st now →
          (AdaptiveRateLimiter.adjust_limits st now).current_limit =
            min st.max_limit
              (Nat.floor ((st.current_limit : ℚ) * (11/10)))) ∧
        (¬ AdaptiveRateLimiter.shrink_condition st now →
          ¬ AdaptiveRateLimiter.grow_condition st now →
          (AdaptiveRateLimiter.adjust_limits st now).current_limit =
            st.current_limit))) := by
  have hinit : limitInvariant (AdaptiveRateLimiter.init config t0) := by
    refine ⟨le_refl _ |>.trans ?_, Nat.le_mul_of_pos_right _ (by norm_num),
      ?_⟩
    · exact max_le h (Nat.div_le_self _ _)
    · exact (max_le h (Nat.div_le_self _ _)).trans
        (Nat.le_mul_of_pos_right _ (by norm_num))
  obtain ⟨hinv, hm, hM⟩ := adaptiveFold_props events _ hinit
  refine ⟨hm, hM, hinv.1, hinv.2.1, ?_⟩
  intro st now
  obtain ⟨hcur, hid⟩ := adjust_limits_current st now
  refine ⟨hid, ?_⟩
  intro htick
  have hnot : ¬ (now - st.last_adjustment <
      AdaptiveRateLimiter.adjustment_interval) := not_lt.mpr htick
  rw [hcur]
  rw [if_neg hnot]
  unfold AdaptiveRateLimiter.new_limit_calc
  refine ⟨fun hs => by rw [if_pos hs], fun hns hg => ?_,
    fun hns hng => ?_⟩
  · rw [if_neg hns, if_pos hg]
  · rw [if_neg hns, if_neg hng]

/-- The shrink target that claim C3 asserts, read literally: exact
`max(minLimit, currentLimit * 0.8)` with no integer truncation. -/
def claimC3ShrinkValue (st : AdaptiveRateLimiter.State) : ℚ :=
  max (st.min_limit : ℚ) ((st.current_limit : ℚ) * (8/10))

/-- A sliding-window config with `max_requests = 100`, giving
`min_limit = 10` and `max_limit = 200`. -/
def adaptiveCexConfig : RateLimitConfig :=
  { max_requests := 100
    time_window := 60
    strategy := RateLimitStrategy.sliding_window
    burst_size := 100
    backoff_factor := 3/2
    max_backoff_time := 300 }

/-- An adaptive limiter built from `adaptiveCexConfig` after two error
driven shrinks (100 → 80 → 64, both exact), with a fresh error in the
trailing interval. -/
def adaptiveCexState : AdaptiveRateLimiter.State :=
  { base_config := { adaptiveCexConfig with max_requests := 64 }
    base_requests := [{ timestamp := 124, success := false }]
    current_limit := 64
    min_limit := 10
    max_limit := 200
    recent_errors := [185]
    recent_response_times := []
    adjustment_history := [(100, 80), (80, 64)]
    last_adjustment := 124 }

/-- C3 counterexample: at the adjustment tick at time 186 the shrink
branch fires (error rate 1 > 0.1), and the new limit is
`int(64 * 0.8) = 51`, not the claim's `max(10, 64*0.8) = 51.2` — the
claim omits the integer truncation the code performs, so its asserted
update value is false at this input. -/
theorem C3_counterexample :
    AdaptiveRateLimiter.shrink_condition adaptiveCexState 186 ∧
    AdaptiveRateLimiter.adjustment_interval ≤
      186 - adaptiveCexState.last_adjustment ∧
    (AdaptiveRateLimiter.adjust_limits adaptiveCexState 186).current_limit
      = 51 ∧
    claimC3ShrinkValue adaptiveCexState = 256/5 ∧
    (((AdaptiveRateLimiter.adjust_limits adaptiveCexState
        186).current_limit : ℚ) ≠ claimC3ShrinkValue adaptiveCexState) := by
  have hs : AdaptiveRateLimiter.shrink_condition adaptiveCexState 186 := by
    left
    unfold AdaptiveRateLimiter.error_rate AdaptiveRateLimiter.error_threshold
      AdaptiveRateLimiter.adjustment_interval
    norm_num [adaptiveCexState]
  have htick : AdaptiveRateLimiter.adjustment_interval ≤
      186 - adaptiveCexState.last_adjustment := by
    unfold AdaptiveRateLimiter.adjustment_interval
    norm_num [adaptiveCexState]
  have hfloor : Nat.floor ((adaptiveCexState.current_limit : ℚ) * (8/10))
      = 51 := by
    rw [show (adaptiveCexState.current_limit : ℚ) = 64 by
      norm_num [adaptiveCexState]]
    rw [Nat.floor_eq_iff (by norm_num)]
    norm_num
  have hcur : (AdaptiveRateLimiter.adjust_limits adaptiveCexState
      186).current_limit = 51 := by
    rw [(adjust_limits_current adaptiveCexState 186).1,
      if_neg (not_lt.mpr htick)]
    unfold AdaptiveRateLimiter.new_limit_calc
    rw [if_pos hs, hfloor]
    norm_num [adaptiveCexState]
  have hclaim : claimC3ShrinkValue adaptiveCexState = 256/5 := by
    unfold claimC3ShrinkValue
    rw [show (adaptiveCexState.min_limit : ℚ) = 10 by
      norm_num [adaptiveCexState]]
    rw [show (adaptiveCexState.current_limit : ℚ) = 64 by
      norm_num [adaptiveCexState]]
    norm_num [max_eq_right]
  refine ⟨hs, htick, hcur, hclaim, ?_⟩
  rw [hcur, hclaim]
  norm_num

/-- Witness for the corrected C3 theorem: a limiter over `tokenCfg`
(`max_requests = 10`) run through one acquire keeps its limit between
`min_limit = 1` and `max_limit = 20`. -/
theorem C3_witness :
    (adaptiveRun tokenCfg 0 [AdaptiveEvent.acquireEv 61 1]).min_limit ≤
      (adaptiveRun tokenCfg 0 [AdaptiveEvent.acquireEv 61 1]).current_limit
    ∧
    (adaptiveRun tokenCfg 0 [AdaptiveEvent.acquireEv 61 1]).current_limit ≤
      (adaptiveRun tokenCfg 0 [AdaptiveEvent.acquireEv 61 1]).max_limit ∧
    (adaptiveRun tokenCfg 0 [AdaptiveEvent.acquireEv 61 1]).min_limit = 1 ∧
    (adaptiveRun tokenCfg 0 [AdaptiveEvent.acquireEv 61 1]).max_limit = 20
    := by
  have h := C3_adaptive_limit_bounds tokenCfg (by norm_num [tokenCfg]) 0
    [AdaptiveEvent.acquireEv 61 1]
  refine ⟨h.2.2.1, h.2.2.2.1, ?_, ?_⟩
  · rw [h.1]; rfl
  · rw [h.2.1]; rfl

/-- A Python/JSON value as handled by the validator: the payloads reaching
`DataQualityAnalyzer.analyze_game_data` are parsed JSON, i.e. None,
booleans, numbers, strings, lists and string-keyed dicts. -/
inductive Value where
  | none : Value
  | bool (b : Bool) : Value
  | int (n : ℤ) : Value
  | str (s : String) : Value
  | list (xs : List Value) : Value
  | dict (kvs : List (String × Value)) : Value

/-- Python truthiness: None, False, 0, "", [] and {} are falsy. -/
def truthy : Value → Bool
  | Value.none => false
  | Value.bool b => b
  | Value.int n => n != 0
  | Value.str s => s != ""
  | Value.list xs => !xs.isEmpty
  | Value.dict kvs => !kvs.isEmpty

/-- A Python runtime exception escaping a validator check. -/
inductive PyErr where
  | attributeError (msg : String)
  | typeError (msg : String)
  | indexError
  deriving DecidableEq, Repr

/-- `data.get(key, default)` on a dict known to be a dict. -/
def dataGet (data : List (String × Value)) (key : String)
    (default : Value) : Value :=
  ((data.find? (fun kv => kv.1 == key)).map Prod.snd).getD default

/-- Attribute access `v.get(key, default)` on an arbitrary value: of the
JSON value shapes only a dict has a `get` method; anything else raises
AttributeError. -/
def pyGet (v : Value) (key : String) (default : Value) :
    Except PyErr Value :=
  match v with
  | Value.dict kvs => Except.ok (dataGet kvs key default)
  | _ => Except.error (PyErr.attributeError "object has no attribute get")

/-- Numeric view of a value: Python bools are ints in arithmetic and
comparisons. -/
def toNum : Value → Option ℤ
  | Value.int n => Option.some n
  | Value.bool b => Option.some (if b then 1 else 0)
  | _ => Option.none

/-- `a > b`.  In `_check_consistency` the right operand is always the int
literal 0, so only the numeric/numeric case succeeds; a non-numeric left
operand raises TypeError as in Python 3. -/
def pyGt (a b : Value) : Except PyErr Bool :=
  match toNum a, toNum b with
  | Option.some x, Option.some y => Except.ok (decide (y < x))
  | _, _ => Except.error (PyErr.typeError "unsupported operand for >")

/-- `a + b`: numeric addition, string or list concatenation, otherwise
TypeError. -/
def pyAdd (a b : Value) : Except PyErr Value :=
  match toNum a, toNum b with
  | Option.some x, Option.some y => Except.ok (Value.int (x + y))
  | _, _ =>
      match a, b with
      | Value.str s, Value.str t => Except.ok (Value.str (s ++ t))
      | Value.list xs, Value.list ys => Except.ok (Value.list (xs ++ ys))
      | _, _ => Except.error (PyErr.typeError "unsupported operand for +")

/-- `a - b`: numeric only. -/
def pySub (a b : Value) : Except PyErr Value :=
  match toNum a, toNum b with
  | Option.some x, Option.some y => Except.ok (Value.int (x - y))
  | _, _ => Except.error (PyErr.typeError "unsupported operand for -")

/-- `a != b`.  Numeric values compare by value (True == 1), strings by
content, values of different shapes are unequal.  Structural equality of
two composite values is not modelled: in `_check_consistency` the right
operand is always the computed int sum, so that case is never
exercised. -/
def pyNe (a b : Value) : Bool :=
  match toNum a, toNum b with
  | Option.some x, Option.some y => x != y
  | _, _ =>
      match a, b with
      | Value.str s, Value.str t => s != t
      | Value.none, Value.none => false
      | _, _ => true

/-- `x or 0` (used on review counters). -/
def pyOrZero (v : Value) : Value :=
  if truthy v then v else Value.int 0

/-- `x or []` (used on genre/category lists). -/
def pyOrEmptyList (v : Value) : Value :=
  if truthy v then v else Value.list []

/-- Iteration `for x in v`: lists yield elements, strings their
characters, dicts their keys; other shapes raise TypeError. -/
def pyIter : Value → Except PyErr (List Value)
  | Value.list xs => Except.ok xs
  | Value.str s => Except.ok (s.data.map (fun c => Value.str (String.singleton c)))
  | Value.dict kvs => Except.ok (kvs.map (fun kv => Value.str kv.1))
  | _ => Except.error (PyErr.typeError "object is not iterable")

/-- `v.lower()`: only strings have it. -/
def pyLower : Value → Except PyErr String
  | Value.str s => Except.ok s.toLower
  | _ => Except.error (PyErr.attributeError "object has no attribute lower")

/-- Enum ValidationSeverity (data_validator.py lines 21-26). -/
inductive ValidationSeverity where
  | info
  | warning
  | error
  | critical
  deriving DecidableEq, Repr

/-- Dataclass ValidationResult (data_validator.py lines 29-37). -/
structure ValidationResult where
  field_name : String
  severity : ValidationSeverity
  message : String
  original_value : Value := Value.none
  suggested_value : Value := Value.none
  validation_rule : String := ""

/-- First stanza of `DataQualityAnalyzer._check_consistency`
(data_validator.py lines 282-291): free flag versus price.  The
`price_info.get('final', 0)` attribute access raises AttributeError when
`price_overview` is truthy but not a dict. -/
def check_consistency_pricing (data : List (String × Value)) :
    Except PyErr (List ValidationResult) :=
  if truthy (dataGet data "is_free" Value.none) &&
      truthy (dataGet data "price_overview" Value.none) then do
    let price_info := dataGet data "price_overview" Value.none
    let final_price ← pyGet price_info "final" (Value.int 0)
    let gt ← pyGt final_price (Value.int 0)
    if gt then do
      let orig ← pyGet price_info "final" Value.none
      pure [{ field_name := "pricing"
              severity := ValidationSeverity.error
              message := "無料ゲームなのに価格が設定されています"
              original_value := orig
              validation_rule := "consistency_check" }]
    else pure []
  else pure []

/-- Second stanza of `_check_consistency` (data_validator.py lines
293-308): declared review total versus computed sum.  The warning fires
whenever `total != positive + negative` — there is no tolerance band in
this check. -/
def check_consistency_reviews (data : List (String × Value)) :
    Except PyErr (List ValidationResult) :=
  let positive := pyOrZero (dataGet data "positive_reviews" (Value.int 0))
  let negative := pyOrZero (dataGet data "negative_reviews" (Value.int 0))
  let total := pyOrZero (dataGet data "total_reviews" (Value.int 0))
  do
    let gp ← pyGt positive (Value.int 0)
    let cond ← if gp then pure true else pyGt negative (Value.int 0)
    if cond then do
      let calculated_total ← pyAdd positive negative
      if pyNe total calculated_total then do
        let difference ← pySub total calculated_total
        pure [{ field_name := "reviews"
                severity := ValidationSeverity.warning
                message := "レビュー数の不整合"
                original_value := total
                suggested_value := calculated_total
                validation_rule := "consistency_check" }]
      else pure []
    else pure []

/-- Third stanza of `_check_consistency` (data_validator.py lines
310-324): overlap between genre and category descriptions (Python set
intersection modelled as deduplicated filtering). -/
def check_consistency_classification (data : List (String × Value)) :
    Except PyErr (List ValidationResult) :=
  let genres := pyOrEmptyList (dataGet data "genres" (Value.list []))
  let categories := pyOrEmptyList (dataGet data "categories" (Value.list []))
  if truthy genres && truthy categories then do
    let gs ← pyIter genres
    let genre_names ← gs.mapM (fun g => do
      let d ← pyGet g "description" (Value.str "")
      pyLower d)
    let cs ← pyIter categories
    let category_names ← cs.mapM (fun c => do
      let d ← pyGet c "description" (Value.str "")
      pyLower d)
    let overlap := genre_names.eraseDups.filter
      (fun s => category_names.contains s)
    if !overlap.isEmpty then
      pure [{ field_name := "classification"
              severity := ValidationSeverity.info
              message := "ジャンルとカテゴリに重複があります"
              validation_rule := "consistency_check" }]
    else pure []
  else pure []

/-- `DataQualityAnalyzer._check_consistency` (data_validator.py lines
279-324): the three stanzas in source order, accumulating their results;
an uncaught exception in any stanza aborts the method (and, since
`analyze_game_data` calls it outside any try/except, the whole
analysis). -/
def check_consistency (data : List (String × Value)) :
    Except PyErr (List ValidationResult) := do
  let r1 ← check_consistency_pricing data
  let r2 ← check_consistency_reviews data
  let r3 ← check_consistency_classification data
  pure (r1 ++ r2 ++ r3)

/-- The severity weights of `get_quality_score`
(data_validator.py lines 449-455). -/
def severity_weight : ValidationSeverity → ℚ
  | ValidationSeverity.info => 0
  | ValidationSeverity.warning => 1/5
  | ValidationSeverity.error => 3/5
  | ValidationSeverity.critical => 1

/-- `DataQualityAnalyzer.get_quality_score` (data_validator.py lines
442-471). -/
def get_quality_score (results : List ValidationResult) : ℚ :=
  if results.isEmpty then 1
  else
    let total_penalty := (results.map
      (fun r => severity_weight r.severity)).sum
    let max_possible_penalty := (results.length : ℚ) * 1
    if max_possible_penalty = 0 then 1
    else max 0 (1 - total_penalty / max_possible_penalty)

/-- Claim C6, confirmed: the quality score is 1 minus the mean severity
weight (Info 0, Warning 0.2, Error 0.6, Critical 1.0), clamped below at
0; it always lies in [0, 1], and an issue-free run scores exactly 1. -/
theorem C6_quality_score (results : List ValidationResult) :
    get_quality_score results =
      (if results.length = 0 then 1
       else max 0 (1 - (results.map
          (fun r => severity_weight r.severity)).sum /
          (results.length : ℚ))) ∧
    0 ≤ get_quality_score results ∧
    get_quality_score results ≤ 1 ∧
    (results = [] → get_quality_score results = 1) := by
  have hp : 0 ≤ (results.map (fun r => severity_weight r.severity)).sum := by
    apply List.sum_nonneg
    intro x hx
    obtain ⟨r, hr, rfl⟩ := List.mem_map.mp hx
    cases r.severity <;> norm_num [severity_weight]
  by_cases h : results = []
  · subst h
    exact ⟨by norm_num [get_quality_score], by norm_num [get_quality_score],
      by norm_num [get_quality_score], fun _ => by
        norm_num [get_quality_score]⟩
  · have hiso : results.isEmpty = false := by
      simpa [List.isEmpty_iff] using h
    have hlen0 : results.length ≠ 0 := by
      simpa [List.length_eq_zero] using h
    have hlenq : ((results.length : ℚ)) ≠ 0 := by
      exact_mod_cast hlen0
    have hscore : get_quality_score results =
        max 0 (1 - (results.map
          (fun r => severity_weight r.severity)).sum /
          (results.length : ℚ)) := by
      simp [get_quality_score, hiso, mul_one, hlenq]
    refine ⟨?_, ?_, ?_, fun hc => absurd hc h⟩
    · rw [hscore, if_neg hlen0]
    · rw [hscore]; exact le_max_left _ _
    · rw [hscore]
      apply max_le (by norm_num)
      have hq : 0 ≤ (results.map
          (fun r => severity_weight r.severity)).sum /
          (results.length : ℚ) :=
        div_nonneg hp (by positivity)
      linarith

/-- Witness for C6: an issue-free run scores exactly 1, within bounds. -/
theorem C6_witness :
    get_quality_score [] = 1 ∧ 0 ≤ get_quality_score [] ∧
      get_quality_score [] ≤ 1 :=
  ⟨(C6_quality_score []).2.2.2 rfl, (C6_quality_score []).2.1,
    (C6_quality_score []).2.2.1⟩

/-- Bind on a successful `Except` computation. -/
theorem exceptBind_ok {e a b : Type} (x : a) (f : a → Except e b) :
    (Except.ok (ε := e) x >>= f) = f x := rfl

/-- Map over a successful `Except` computation. -/
theorem exceptMap_ok {e a b : Type} (f : a → b) (x : a) :
    (f <$> Except.ok (ε := e) x) = Except.ok (f x) := rfl

/-- Bind on a failed `Except` computation. -/
theorem exceptBind_error {e a b : Type} (x : e) (f : a → Except e b) :
    (Except.error (α := a) x >>= f) = Except.error x := rfl

/-- `pure` on `Except` is `Except.ok`. -/
theorem exceptPure {e a : Type} (x : a) :
    (pure x : Except e a) = Except.ok x := rfl

/-- A payload carrying only the three review counters. -/
def reviewPayload (p n t : ℤ) : List (String × Value) :=
  [("positive_reviews", Value.int p), ("negative_reviews", Value.int n),
   ("total_reviews", Value.int t)]

/-- "The validator emitted a Warning on the `reviews` field with the given
suggested value." -/
def hasReviewWarning (rs : List ValidationResult) (sv : ℤ) : Prop :=
  ∃ r ∈ rs, r.field_name = "reviews" ∧
    r.severity = ValidationSeverity.warning ∧
    r.suggested_value = Value.int sv

/-- Claim C7 read literally at a review payload: the warning (with
suggested value `positive + negative`) is emitted exactly when the
declared total is outside the 5 % tolerance used by
`SteamGameValidator.validate_total_reviews` (data_validator.py line
180). -/
def claimC7 (p n t : ℤ) : Prop :=
  (∃ rs, check_consistency (reviewPayload p n t) = Except.ok rs ∧
    hasReviewWarning rs (p + n)) ↔
  (1/20 : ℚ) < |(t : ℚ) - ((p : ℚ) + (n : ℚ))| / ((p : ℚ) + (n : ℚ))

/-- `x or 0` is the identity on ints (0 is falsy but `or` then yields the
literal 0). -/
theorem pyOrZero_int (p : ℤ) : pyOrZero (Value.int p) = Value.int p := by
  unfold pyOrZero truthy
  by_cases h : p = 0
  · subst h; simp
  · simp [h]

/-- Evaluation of `_check_consistency` on a pure review payload with a
nonzero positive or negative counter: the single `reviews` warning is
produced exactly when the declared total differs from the computed sum —
by any nonzero amount. -/
theorem check_consistency_reviewPayload (p n t : ℤ) (h : 0 < p ∨ 0 < n) :
    check_consistency (reviewPayload p n t) =
      (if t = p + n then Except.ok []
       else Except.ok [{ field_name := "reviews"
                         severity := ValidationSeverity.warning
                         message := "レビュー数の不整合"
                         original_value := Value.int t
                         suggested_value := Value.int (p + n)
                         validation_rule := "consistency_check" }]) := by
  have hpr : check_consistency_pricing (reviewPayload p n t) =
      Except.ok [] := rfl
  have hcl : check_consistency_classification (reviewPayload p n t) =
      Except.ok [] := rfl
  have hpos : dataGet (reviewPayload p n t) "positive_reviews"
      (Value.int 0) = Value.int p := rfl
  have hneg : dataGet (reviewPayload p n t) "negative_reviews"
      (Value.int 0) = Value.int n := rfl
  have htot : dataGet (reviewPayload p n t) "total_reviews"
      (Value.int 0) = Value.int t := rfl
  have hrev : check_consistency_reviews (reviewPayload p n t) =
      (if t = p + n then Except.ok []
       else Except.ok [{ field_name := "reviews"
                         severity := ValidationSeverity.warning
                         message := "レビュー数の不整合"
                         original_value := Value.int t
                         suggested_value := Value.int (p + n)
                         validation_rule := "consistency_check" }]) := by
    unfold check_consistency_reviews
    rw [hpos, hneg, htot, pyOrZero_int, pyOrZero_int, pyOrZero_int]
    rcases h with hp | hn
    · by_cases ht : t = p + n <;>
        simp [pyGt, toNum, pyAdd, pyNe, pySub, exceptBind_ok, exceptMap_ok,
          exceptPure, hp, ht, bne_iff_ne]
    · by_cases ht : t = p + n <;>
        simp [pyGt, toNum, pyAdd, pyNe, pySub, exceptBind_ok, exceptMap_ok,
          exceptPure, hn, ht, bne_iff_ne]
  unfold check_consistency
  rw [hpr, hrev, hcl]
  by_cases ht : t = p + n <;>
    simp [ht, exceptBind_ok, exceptMap_ok, exceptPure]

/-- Claim C7, corrected: for a payload with positive/negative/total
counters (positive or negative nonzero), `_check_consistency` emits the
`reviews` Warning with suggested value `positive + negative` exactly when
the declared total differs from the computed sum at all — the 5 %
tolerance exists only in the Pydantic `validate_total_reviews` logging
path, which emits no ValidationResult. -/
theorem C7_review_count_warning (p n t : ℤ) (h : 0 < p ∨ 0 < n) :
    ∃ rs, check_consistency (reviewPayload p n t) = Except.ok rs ∧
      (hasReviewWarning rs (p + n) ↔ t ≠ p + n) := by
  by_cases ht : t = p + n
  · refine ⟨[], by rw [check_consistency_reviewPayload p n t h,
      if_pos ht], ?_⟩
    simp [hasReviewWarning, ht]
  · refine ⟨[{ field_name := "reviews"
               severity := ValidationSeverity.warning
               message := "レビュー数の不整合"
               original_value := Value.int t
               suggested_value := Value.int (p + n)
               validation_rule := "consistency_check" }],
      by rw [check_consistency_reviewPayload p n t h, if_neg ht], ?_⟩
    simp [hasReviewWarning, ht]

/-- C7 counterexample: `positive = 100, negative = 0, total = 101` is
within the claim's 5 % tolerance (1 % off), yet the code emits the
`reviews` Warning, because data_validator.py line 300 compares for plain
inequality.  The claim as stated is therefore false at this input. -/
theorem C7_counterexample :
    ¬ claimC7 100 0 101 ∧
    |(101 : ℚ) - ((100 : ℚ) + (0 : ℚ))| / ((100 : ℚ) + (0 : ℚ)) ≤ 1/20 := by
  have hrun : check_consistency (reviewPayload 100 0 101) =
      Except.ok [{ field_name := "reviews"
                   severity := ValidationSeverity.warning
                   message := "レビュー数の不整合"
                   original_value := Value.int 101
                   suggested_value := Value.int 100
                   validation_rule := "consistency_check" }] := rfl
  constructor
  · intro hc
    have hlhs : ∃ rs, check_consistency (reviewPayload 100 0 101) =
        Except.ok rs ∧ hasReviewWarning rs (100 + 0) := by
      refine ⟨_, hrun, ?_⟩
      exact ⟨_, List.mem_singleton_self _, rfl, rfl, rfl⟩
    have := hc.mp hlhs
    norm_num at this
  · norm_num

/-- Witness for the corrected C7 theorem at the claim's own scenario:
`positive = 80, negative = 20, total = 200` yields the `reviews` Warning
with suggested value 100. -/
theorem C7_witness :
    ∃ rs, check_consistency (reviewPayload 80 20 200) = Except.ok rs ∧
      hasReviewWarning rs 100 := by
  obtain ⟨rs, hrs, hiff⟩ := C7_review_count_warning 80 20 200
    (Or.inl (by norm_num))
  have h100 : (80 : ℤ) + 20 = 100 := by norm_num
  refine ⟨rs, hrs, ?_⟩
  have := hiff.mpr (by norm_num)
  rwa [h100] at this

/-- The malformed payload of claim C4: a free game whose
`price_overview` is a string rather than a dict. -/
def c4FailingPayload : List (String × Value) :=
  [("is_free", Value.bool true), ("price_overview", Value.str "paid")]

/-- C4: on a truthy non-dict `price_overview` the consistency check
evaluates `price_info.get('final', 0)` on a string and raises
AttributeError; `analyze_game_data` (data_validator.py line 219) calls
`_check_consistency` outside any try/except, so the exception escapes and
no ValidationResult list is returned — contradicting the claim (and
spec) that the analyzer never raises. -/
theorem C4_checkConsistency_raises :
    check_consistency c4FailingPayload =
      Except.error (PyErr.attributeError "object has no attribute get") ∧
    ∀ rs, check_consistency c4FailingPayload ≠ Except.ok rs := by
  refine ⟨rfl, ?_⟩
  intro rs h
  rw [show check_consistency c4FailingPayload =
    Except.error (PyErr.attributeError "object has no attribute get")
    from rfl] at h
  exact Except.noConfusion h

/-- Dataclass SteamGameData (steam_api.py lines 35-56).  Python does not
enforce the annotated field types at runtime, so the fields hold raw
payload values. -/
structure SteamGameData where
  app_id : ℕ
  name : Value
  type : Value
  is_free : Value
  detailed_description : Value
  short_description : Value
  developers : Value
  publishers : Value
  price_overview : Value
  release_date : Value
  platforms : Value
  categories : Value
  genres : Value

/-- The body of `SteamAPIClient.get_app_details` (steam_api.py lines
194-238) after the HTTP response has been parsed: look up the app id,
treat a falsy entry or a falsy `success` flag as "record absent"
(`None`), otherwise build the `SteamGameData` from `data` with the
defaults of the source. -/
def getAppDetailsBody (app_id : ℕ) (response : Value) :
    Except PyErr (Option SteamGameData) := do
  let app_data ← pyGet response (toString app_id) Value.none
  if !truthy app_data then
    pure Option.none
  else do
    let success_flag ← pyGet app_data "success" Value.none
    if !truthy success_flag then
      pure Option.none
    else do
      let dataV ← pyGet app_data "data" (Value.dict [])
      let nameV ← pyGet dataV "name" (Value.str "")
      let typeV ← pyGet dataV "type" (Value.str "")
      let isFreeV ← pyGet dataV "is_free" (Value.bool false)
      let dd ← pyGet dataV "detailed_description" Value.none
      let sd ← pyGet dataV "short_description" Value.none
      let devs ← pyGet dataV "developers" (Value.list [])
      let pubs ← pyGet dataV "publishers" (Value.list [])
      let po ← pyGet dataV "price_overview" Value.none
      let rd ← pyGet dataV "release_date" Value.none
      let pf ← pyGet dataV "platforms" Value.none
      let cats ← pyGet dataV "categories" (Value.list [])
      let gens ← pyGet dataV "genres" (Value.list [])
      pure (Option.some
        { app_id := app_id
          name := nameV
          type := typeV
          is_free := isFreeV
          detailed_description := dd
          short_description := sd
          developers := devs
          publishers := pubs
          price_overview := po
          release_date := rd
          platforms := pf
          categories := cats
          genres := gens })

/-- `SteamAPIClient.get_app_details`: the whole body sits in a
`try/except Exception` that logs and returns `None`, so no exception ever
escapes. -/
def get_app_details (app_id : ℕ) (response : Value) :
    Option SteamGameData :=
  match getAppDetailsBody app_id response with
  | Except.ok v => v
  | Except.error _ => Option.none

/-- Claim C8, confirmed: an HTTP-200 body of the form
`{"<id>": {"success": false}}` makes `get_app_details` return `None`
(record absent) for every app id; `get_app_details` is a total function
into `Option`, so the logical failure is never escalated as an
exception. -/
theorem C8_success_false_returns_none (app_id : ℕ) :
    get_app_details app_id
      (Value.dict [(toString app_id,
        Value.dict [("success", Value.bool false)])]) = Option.none := by
  have hbody : getAppDetailsBody app_id
      (Value.dict [(toString app_id,
        Value.dict [("success", Value.bool false)])]) =
      Except.ok Option.none := by
    unfold getAppDetailsBody
    simp [pyGet, dataGet, truthy, exceptBind_ok, exceptPure]
  unfold get_app_details
  rw [hbody]

/-- The observable outcome of one HTTP attempt inside
`get_game_details` (collect_indie_games.py lines 294-336). -/
inductive AttemptResult where
  | response (status : ℕ) (body : Value)
  | timeout
  | exc

/-- The HTTP-200 body handling of `get_game_details`
(collect_indie_games.py lines 303-312); an exception here is caught by
the surrounding `except Exception`. -/
def parse200 (app_id : ℕ) (body : Value) : Except PyErr (Option Value) := do
  let app_data ← pyGet body (toString app_id) Value.none
  if truthy app_data then do
    let success_flag ← pyGet app_data "success" Value.none
    if truthy success_flag then do
      let d ← pyGet app_data "data" Value.none
      pure (Option.some d)
    else pure Option.none
  else pure Option.none

/-- The `for attempt in range(max_retries)` loop of `get_game_details`:
HTTP 200 parses and returns; HTTP 429 sleeps `2**attempt` seconds and
retries; any other status returns `None`; a timeout or other exception
sleeps 1 s and retries except on the final attempt.  Returns the result,
the number of attempts made, and the list of sleeps performed. -/
def getGameDetailsLoop (server : ℕ → AttemptResult) (app_id : ℕ) :
    ℕ → ℕ → List ℚ → Option Value × ℕ × List ℚ
  | 0, attempt, sleeps => (Option.none, attempt, sleeps)
  | fuel+1, attempt, sleeps =>
      match server attempt with
      | AttemptResult.response 200 body =>
          match parse200 app_id body with
          | Except.ok v => (v, attempt + 1, sleeps)
          | Except.error _ =>
              if fuel = 0 then (Option.none, attempt + 1, sleeps)
              else getGameDetailsLoop server app_id fuel (attempt + 1)
                (sleeps ++ [1])
      | AttemptResult.response 429 _ =>
          getGameDetailsLoop server app_id fuel (attempt + 1)
            (sleeps ++ [(2 : ℚ) ^ attempt])
      | AttemptResult.response _ _ => (Option.none, attempt + 1, sleeps)
      | AttemptResult.timeout =>
          if fuel = 0 then (Option.none, attempt + 1, sleeps)
          else getGameDetailsLoop server app_id fuel (attempt + 1)
            (sleeps ++ [1])
      | AttemptResult.exc =>
          if fuel = 0 then (Option.none, attempt + 1, sleeps)
          else getGameDetailsLoop server app_id fuel (attempt + 1)
            (sleeps ++ [1])

/-- `get_game_details(app_id, max_retries)` run against a server
abstraction. -/
def get_game_details (server : ℕ → AttemptResult) (app_id : ℕ)
    (max_retries : ℕ) : Option Value × ℕ × List ℚ :=
  getGameDetailsLoop server app_id max_retries 0 []

/-- A server that answers every request with HTTP 429. -/
def always429 : ℕ → AttemptResult :=
  fun _ => AttemptResult.response 429 (Value.dict [])

/-- Against the always-429 server the loop consumes its whole retry
budget, sleeping `2^attempt` after each attempt, and ends with `None`. -/
theorem getGameDetailsLoop_always429 (app_id : ℕ) :
    ∀ (fuel attempt : ℕ) (sleeps : List ℚ),
      getGameDetailsLoop always429 app_id fuel attempt sleeps =
        (Option.none, attempt + fuel,
          sleeps ++ (List.range fuel).map
            (fun i => (2 : ℚ) ^ (attempt + i))) := by
  intro fuel
  induction fuel with
  | zero => intro attempt sleeps; simp [getGameDetailsLoop]
  | succ f ih =>
      intro attempt sleeps
      rw [getGameDetailsLoop]
      show getGameDetailsLoop always429 app_id f (attempt + 1)
          (sleeps ++ [(2 : ℚ) ^ attempt]) = _
      rw [ih (attempt + 1) (sleeps ++ [(2 : ℚ) ^ attempt])]
      have hlist : (List.range (f+1)).map (fun i => (2:ℚ) ^ (attempt + i)) =
          (2:ℚ) ^ attempt :: (List.range f).map
            (fun i => (2:ℚ) ^ (attempt + 1 + i)) := by
        rw [List.range_succ_eq_map, List.map_cons, List.map_map,
          Nat.add_zero]
        congr 1
        apply List.map_congr_left
        intro a ha
        simp only [Function.comp_apply]
        congr 1
        omega
      simp only [Prod.mk.injEq]
      refine ⟨trivial, by omega, ?_⟩
      rw [hlist]
      simp

/-- Claim C9, confirmed: against a server that always answers HTTP 429,
`get_game_details` terminates after exactly `max_retries` attempts
(default 3), sleeping `2^attempt` seconds after each 429, and returns
`None` (the failure outcome).  For the default budget of 3 attempts these
sleeps equal `min(max_backoff, 2^attempt)` with the default 300 s
backoff ceiling — no retry ever reaches the point where a cap would
matter. -/
theorem C9_retry_terminates (app_id : ℕ) (max_retries : ℕ) :
    (get_game_details always429 app_id max_retries).1 = Option.none ∧
    (get_game_details always429 app_id max_retries).2.1 = max_retries ∧
    (get_game_details always429 app_id max_retries).2.2 =
      (List.range max_retries).map (fun attempt => (2 : ℚ) ^ attempt) ∧
    (get_game_details always429 app_id 3).2.2 =
      [min (300 : ℚ) ((2:ℚ) ^ (0:ℕ)), min (300 : ℚ) ((2:ℚ) ^ (1:ℕ)),
       min (300 : ℚ) ((2:ℚ) ^ (2:ℕ))] := by
  have h := getGameDetailsLoop_always429 app_id max_retries 0 []
  have h3 := getGameDetailsLoop_always429 app_id 3 0 []
  unfold get_game_details
  rw [h, h3]
  refine ⟨rfl, by simp, by simp, ?_⟩
  simp only [List.nil_append]
  norm_num [List.range_succ, min_def]

/-- State of `SteamAPIRateLimiter` (steam_api.py lines 59-95): bare
timestamps only — no success flags, latencies or outcome data. -/
structure SteamAPIRateLimiter where
  max_requests : ℕ := 200
  time_window : ℕ := 300
  requests : List ℚ := []
  deriving DecidableEq, Repr

/-- `SteamAPIRateLimiter.acquire` (steam_api.py lines 77-95): prune,
sleep out the oldest entry when at capacity (dropping it), then append
the current time.  `self.requests[0]` on an empty list at capacity zero
would raise IndexError.  Returns the new state and the time slept. -/
def SteamAPIRateLimiter.acquire (st : SteamAPIRateLimiter) (now : ℚ) :
    Except PyErr (SteamAPIRateLimiter × ℚ) :=
  let cutoff_time := now - (st.time_window : ℚ)
  let pruned := st.requests.filter (fun req_time => cutoff_time < req_time)
  if st.max_requests ≤ pruned.length then
    match pruned with
    | [] => Except.error PyErr.indexError
    | oldest :: rest =>
        Except.ok ({ st with requests := rest ++ [now] },
          oldest - cutoff_time)
  else
    Except.ok ({ st with requests := pruned ++ [now] }, 0)

/-- A call the API client can make on its rate limiter. -/
inductive LimiterOp where
  | acquireOp
  | recordResponseOp (success : Bool) (latency : Option ℚ)
  deriving DecidableEq, Repr

/-- The error outcomes `_make_request` can raise towards tenacity. -/
inductive RequestError where
  | httpError (status : ℕ)
  | clientError
  | timeoutError
  deriving DecidableEq, Repr

/-- The number of `record_response`-style calls in an operation trace. -/
def countRecordResponse (ops : List LimiterOp) : ℕ :=
  (ops.filter (fun op => match op with
    | LimiterOp.recordResponseOp _ _ => true
    | _ => false)).length

/-- One tenacity attempt of `SteamAPIClient._make_request` (steam_api.py
lines 135-174): the sole rate-limiter interaction on every path is the
single `await self.rate_limiter.acquire()` before the HTTP call;
`raise_for_status` raises on status ≥ 400, timeouts and client errors
re-raise.  Returns the request outcome, the limiter state after the
attempt, and the trace of limiter operations performed. -/
def make_request (st : SteamAPIRateLimiter) (now : ℚ)
    (outcome : AttemptResult) :
    Except PyErr ((Except RequestError Value) × SteamAPIRateLimiter ×
      List LimiterOp) := do
  let acq ← SteamAPIRateLimiter.acquire st now
  let ops := [LimiterOp.acquireOp]
  match outcome with
  | AttemptResult.response status body =>
      if status < 400 then pure (Except.ok body, acq.1, ops)
      else pure (Except.error (RequestError.httpError status), acq.1, ops)
  | AttemptResult.timeout =>
      pure (Except.error RequestError.timeoutError, acq.1, ops)
  | AttemptResult.exc =>
      pure (Except.error RequestError.clientError, acq.1, ops)

/-- Claim C5 at one attempt: the attempt performs exactly one
`record_response` call on the client's rate limiter. -/
def claimC5 (st : SteamAPIRateLimiter) (now : ℚ)
    (outcome : AttemptResult) : Prop :=
  ∀ res, make_request st now outcome = Except.ok res →
    countRecordResponse res.2.2 = 1

/-- Claim C5, corrected: an attempt of `_make_request` performs exactly
one `acquire` and no `record_response` call at all — the limiter state
after the attempt is the acquire-updated state, identical for success,
timeout and error outcomes, so no outcome information ever reaches the
limiter. -/
theorem C5_attempt_limiter_effect (st : SteamAPIRateLimiter) (now : ℚ)
    (o1 o2 : AttemptResult) :
    (make_request st now o1).map (fun res => res.2.1) =
      (make_request st now o2).map (fun res => res.2.1) ∧
    (∀ res, make_request st now o1 = Except.ok res →
      res.2.2 = [LimiterOp.acquireOp] ∧
      countRecordResponse res.2.2 = 0 ∧
      Except.ok res.2.1 =
        (SteamAPIRateLimiter.acquire st now).map Prod.fst) := by
  cases hacq : SteamAPIRateLimiter.acquire st now with
  | error e =>
      constructor
      · cases o1 <;> cases o2 <;>
          simp [make_request, hacq, Except.map, exceptBind_error]
      · intro res h
        cases o1 <;>
          simp [make_request, hacq, exceptBind_error] at h
  | ok p =>
      constructor
      · cases o1 <;> cases o2 <;>
          simp [make_request, hacq, exceptBind_ok, exceptPure,
            Except.map] <;>
          split_ifs <;> simp
      · intro res h
        cases o1 with
        | response status body =>
            simp only [make_request, hacq, exceptBind_ok] at h
            split_ifs at h with hs <;>
              simp only [exceptPure, Except.ok.injEq] at h <;>
              subst h <;>
              simp [countRecordResponse, hacq, Except.map]
        | timeout =>
            simp only [make_request, hacq, exceptBind_ok,
              exceptPure, Except.ok.injEq] at h
            subst h
            simp [countRecordResponse, hacq, Except.map]
        | exc =>
            simp only [make_request, hacq, exceptBind_ok,
              exceptPure, Except.ok.injEq] at h
            subst h
            simp [countRecordResponse, hacq, Except.map]

/-- C5 counterexample: a successful HTTP-200 attempt on a fresh limiter
performs zero `record_response` calls (its trace is the single
`acquire`), so the claim's "exactly one recordOutcome per attempt" is
false at this input — `SteamAPIRateLimiter` has no such method and
`_make_request` never invokes one. -/
theorem C5_counterexample :
    make_request { requests := [] } 0
        (AttemptResult.response 200 (Value.dict [])) =
      Except.ok (Except.ok (Value.dict []),
        { requests := [(0 : ℚ)] }, [LimiterOp.acquireOp]) ∧
    ¬ claimC5 { requests := [] } 0
        (AttemptResult.response 200 (Value.dict [])) := by
  have hrun : make_request { requests := [] } 0
      (AttemptResult.response 200 (Value.dict [])) =
      Except.ok (Except.ok (Value.dict []),
        { requests := [(0 : ℚ)] }, [LimiterOp.acquireOp]) := rfl
  refine ⟨hrun, ?_⟩
  intro h
  have := h _ hrun
  simp [countRecordResponse] at this

/-- Witness for the corrected C5 theorem: on a fresh limiter the
limiter-state outcome of a 200 attempt equals that of a timeout attempt,
and the 200 attempt's trace is one `acquire` with zero
`record_response` calls. -/
theorem C5_witness :
    (make_request { requests := [] } 0
        (AttemptResult.response 200 (Value.dict []))).map
        (fun res => res.2.1) =
      (make_request { requests := [] } 0 AttemptResult.timeout).map
        (fun res => res.2.1) ∧
    (Except.ok (Except.ok (Value.dict []),
        { requests := [(0 : ℚ)] }, [LimiterOp.acquireOp]) :
      Except PyErr ((Except RequestError Value) × SteamAPIRateLimiter ×
        List LimiterOp)).map (fun res => res.2.2) =
      Except.ok [LimiterOp.acquireOp] ∧
    countRecordResponse [LimiterOp.acquireOp] = 0 := by
  have h := C5_attempt_limiter_effect { requests := [] } 0
    (AttemptResult.response 200 (Value.dict [])) AttemptResult.timeout
  have h2 := h.2 (Except.ok (Value.dict []),
    { requests := [(0 : ℚ)] }, [LimiterOp.acquireOp]) rfl
  exact ⟨h.1, rfl, h2.2.1⟩

/-- A rate limiter instance as produced by the module: one of the three
limiter classes of rate_limiter.py with its freshly constructed state. -/
inductive RateLimiterInstance where
  | slidingWindow (config : RateLimitConfig)
      (requests : List RequestRecord)
  | tokenBucket (config : RateLimitConfig)
      (st : TokenBucketRateLimiter.State)
  | adaptive (config : RateLimitConfig) (st : AdaptiveRateLimiter.State)

/-- `create_rate_limiter` (rate_limiter.py lines 317-331): dispatch on
`config.strategy`, raising ValueError for anything that is not
SLIDING_WINDOW or TOKEN_BUCKET.  `now` is the construction time of the
new limiter. -/
def create_rate_limiter (config : RateLimitConfig) (now : ℚ) :
    Except String RateLimiterInstance :=
  if config.strategy = RateLimitStrategy.sliding_window then
    Except.ok (RateLimiterInstance.slidingWindow config [])
  else if config.strategy = RateLimitStrategy.token_bucket then
    Except.ok (RateLimiterInstance.tokenBucket config
      (TokenBucketRateLimiter.init config now))
  else
    Except.error "unsupported strategy"

/-- Claim C10, confirmed: the factory returns a fresh sliding-window
limiter for SLIDING_WINDOW, a fresh token bucket for TOKEN_BUCKET, and
raises ValueError for every other strategy — including the enum's own
FIXED_WINDOW member — and never produces an AdaptiveRateLimiter. -/
theorem C10_create_rate_limiter (config : RateLimitConfig) (now : ℚ) :
    (config.strategy = RateLimitStrategy.sliding_window →
      create_rate_limiter config now =
        Except.ok (RateLimiterInstance.slidingWindow config [])) ∧
    (config.strategy = RateLimitStrategy.token_bucket →
      create_rate_limiter config now =
        Except.ok (RateLimiterInstance.tokenBucket config
          (TokenBucketRateLimiter.init config now))) ∧
    (config.strategy = RateLimitStrategy.fixed_window →
      create_rate_limiter config now =
        Except.error "unsupported strategy") ∧
    (∀ c st, create_rate_limiter config now ≠
      Except.ok (RateLimiterInstance.adaptive c st)) := by
  rcases hc : config.strategy <;>
    simp [create_rate_limiter, hc]

/-- Witness for C10 at all three strategies. -/
theorem C10_witness :
    create_rate_limiter slidingCexConfig 0 =
      Except.ok (RateLimiterInstance.slidingWindow slidingCexConfig []) ∧
    create_rate_limiter tokenCfg 0 =
      Except.ok (RateLimiterInstance.tokenBucket tokenCfg
        (TokenBucketRateLimiter.init tokenCfg 0)) ∧
    create_rate_limiter
        { slidingCexConfig with strategy := RateLimitStrategy.fixed_window }
        0 = Except.error "unsupported strategy" :=
  ⟨(C10_create_rate_limiter slidingCexConfig 0).1 rfl,
   (C10_create_rate_limiter tokenCfg 0).2.1 rfl,
   (C10_create_rate_limiter _ 0).2.2.1 rfl⟩
